import Mathlib

/-!
Verification of the StorySpark clip-generation pipeline
(`backend/app/services/generation.py`, `safety.py`, `tts.py`, `orchestrator.py`).

The pipeline's pure logic is embedded shallowly: the two LLM calls, the TTS
HTTP call and the filesystem are oracles (explicit environment records), while
the parsing, branching and state-transition logic is translated line by line
from the source.  Python `json.loads` is modelled by an executable fuel-based
JSON parser; the fenced-code-block regex used by both services is modelled by
an executable leftmost/lazy matcher for the fixed pattern.
-/

namespace StorySpark

/-! ## JSON values, modelling what Python `json.loads` produces -/

/-- JSON values.  Numbers keep their source literal: the pipeline under
verification never inspects numeric values, only the success or failure of
parsing and the shapes of objects/strings/booleans. -/
inductive Json where
  | null : Json
  | bool (b : Bool) : Json
  | num (lit : String) : Json
  | str (s : String) : Json
  | arr (items : List Json) : Json
  | obj (fields : List (String × Json)) : Json

/-- JSON whitespace accepted by Python's `json` module between tokens. -/
def isJsonWs (c : Char) : Bool :=
  c = ' ' || c = '\t' || c = '\n' || c = '\r'

def skipJsonWs : List Char → List Char
  | [] => []
  | c :: cs => if isJsonWs c then skipJsonWs cs else c :: cs

/-- Match a literal character sequence, returning the remainder. -/
def dropLit : List Char → List Char → Option (List Char)
  | [], rest => some rest
  | _ :: _, [] => none
  | p :: ps, c :: cs => if p = c then dropLit ps cs else none

def escChar : Char → Option Char
  | '"' => some '"'
  | '\\' => some '\\'
  | '/' => some '/'
  | 'b' => some (Char.ofNat 8)
  | 'f' => some (Char.ofNat 12)
  | 'n' => some '\n'
  | 'r' => some '\r'
  | 't' => some '\t'
  | _ => none

def hexVal (c : Char) : Option Nat :=
  if '0' ≤ c ∧ c ≤ '9' then some (c.toNat - '0'.toNat)
  else if 'a' ≤ c ∧ c ≤ 'f' then some (c.toNat - 'a'.toNat + 10)
  else if 'A' ≤ c ∧ c ≤ 'F' then some (c.toNat - 'A'.toNat + 10)
  else none

/-- Body of a JSON string after the opening quote: content and remainder
after the closing quote.  Unescaped control characters are rejected, as in
Python's strict default. -/
def parseStringBody : List Char → Option (List Char × List Char)
  | [] => none
  | '"' :: rest => some ([], rest)
  | '\\' :: 'u' :: a :: b :: c :: d :: rest =>
    match hexVal a, hexVal b, hexVal c, hexVal d with
    | some ha, some hb, some hc, some hd =>
      (parseStringBody rest).map
        (fun p => (Char.ofNat (((ha * 16 + hb) * 16 + hc) * 16 + hd) :: p.1, p.2))
    | _, _, _, _ => none
  | '\\' :: e :: rest =>
    match escChar e with
    | some ec => (parseStringBody rest).map (fun p => (ec :: p.1, p.2))
    | none => none
  | c :: rest =>
    if c.toNat < 32 then none
    else (parseStringBody rest).map (fun p => (c :: p.1, p.2))

def spanDigits : List Char → List Char × List Char
  | [] => ([], [])
  | c :: cs =>
    if c.isDigit then
      let p := spanDigits cs
      (c :: p.1, p.2)
    else ([], c :: cs)

/-- Integer part of the JSON number grammar: `0` or a nonzero-led digit run. -/
def parseIntPart : List Char → Option (List Char × List Char)
  | '0' :: rest => some (['0'], rest)
  | c :: rest =>
    if c.isDigit then
      let p := spanDigits rest
      some (c :: p.1, p.2)
    else none
  | [] => none

/-- Optional fraction part `. digits`; on no match, consumes nothing. -/
def parseFrac : List Char → List Char × List Char
  | '.' :: rest =>
    match spanDigits rest with
    | ([], _) => ([], '.' :: rest)
    | (ds, r) => ('.' :: ds, r)
  | l => ([], l)

/-- Optional exponent part `[eE] [+-]? digits`; on no match, consumes nothing. -/
def parseExp : List Char → List Char × List Char
  | c :: rest =>
    if c = 'e' ∨ c = 'E' then
      match rest with
      | s :: rest2 =>
        if s = '+' ∨ s = '-' then
          match spanDigits rest2 with
          | ([], _) => ([], c :: rest)
          | (ds, r) => (c :: s :: ds, r)
        else
          match spanDigits rest with
          | ([], _) => ([], c :: rest)
          | (ds, r) => (c :: ds, r)
      | [] => ([], [c])
    else ([], c :: rest)
  | [] => ([], [])

/-- A JSON number at the head of the input: literal text and remainder. -/
def parseNumberAt (l : List Char) : Option (List Char × List Char) :=
  let p : List Char × List Char :=
    match l with
    | '-' :: r => (['-'], r)
    | _ => ([], l)
  match parseIntPart p.2 with
  | none => none
  | some (ip, r1) =>
    let f := parseFrac r1
    let e := parseExp f.2
    some (p.1 ++ ip ++ f.1 ++ e.1, e.2)

mutual

/-- A JSON value at the head of the input (no leading whitespace).  `fuel`
only bounds nesting depth; `json_loads` supplies more than enough. -/
def parseValue : Nat → List Char → Option (Json × List Char)
  | 0, _ => none
  | fuel + 1, l =>
    match l with
    | [] => none
    | 'n' :: r => (dropLit ['u', 'l', 'l'] r).map (fun rest => (Json.null, rest))
    | 't' :: r => (dropLit ['r', 'u', 'e'] r).map (fun rest => (Json.bool true, rest))
    | 'f' :: r => (dropLit ['a', 'l', 's', 'e'] r).map (fun rest => (Json.bool false, rest))
    | 'N' :: r => (dropLit ['a', 'N'] r).map (fun rest => (Json.num "NaN", rest))
    | 'I' :: r =>
      (dropLit ['n', 'f', 'i', 'n', 'i', 't', 'y'] r).map
        (fun rest => (Json.num "Infinity", rest))
    | '"' :: r => (parseStringBody r).map (fun p => (Json.str (String.mk p.1), p.2))
    | '\x7b' :: r =>
      match skipJsonWs r with
      | '\x7d' :: rest => some (Json.obj [], rest)
      | l2 => (parseMembers fuel l2).map (fun p => (Json.obj p.1, p.2))
    | '[' :: r =>
      match skipJsonWs r with
      | ']' :: rest => some (Json.arr [], rest)
      | l2 => (parseItems fuel l2).map (fun p => (Json.arr p.1, p.2))
    | '-' :: r =>
      match dropLit ['I', 'n', 'f', 'i', 'n', 'i', 't', 'y'] r with
      | some rest => some (Json.num "-Infinity", rest)
      | none =>
        (parseNumberAt ('-' :: r)).map (fun p => (Json.num (String.mk p.1), p.2))
    | c :: r =>
      if c.isDigit then
        (parseNumberAt (c :: r)).map (fun p => (Json.num (String.mk p.1), p.2))
      else none

/-- Members of a JSON object after `{` (first member expected at head). -/
def parseMembers : Nat → List Char → Option (List (String × Json) × List Char)
  | 0, _ => none
  | fuel + 1, l =>
    match l with
    | '"' :: r =>
      match parseStringBody r with
      | none => none
      | some (k, r1) =>
        match skipJsonWs r1 with
        | ':' :: r2 =>
          match parseValue fuel (skipJsonWs r2) with
          | none => none
          | some (v, r3) =>
            match skipJsonWs r3 with
            | ',' :: r4 =>
              (parseMembers fuel (skipJsonWs r4)).map
                (fun p => ((String.mk k, v) :: p.1, p.2))
            | '\x7d' :: r4 => some ([(String.mk k, v)], r4)
            | _ => none
        | _ => none
    | _ => none

/-- Items of a JSON array after `[` (first item expected at head). -/
def parseItems : Nat → List Char → Option (List Json × List Char)
  | 0, _ => none
  | fuel + 1, l =>
    match parseValue fuel l with
    | none => none
    | some (v, r1) =>
      match skipJsonWs r1 with
      | ',' :: r2 => (parseItems fuel (skipJsonWs r2)).map (fun p => (v :: p.1, p.2))
      | ']' :: r2 => some ([v], r2)
      | _ => none

end

/-- Model of Python `json.loads`: whole input must be one JSON document,
surrounded only by whitespace; `none` models a raised `JSONDecodeError`. -/
def json_loads (s : String) : Option Json :=
  match parseValue (2 * s.data.length + 2) (skipJsonWs s.data) with
  | some (v, rest) => if skipJsonWs rest = [] then some v else none
  | none => none

/-! ## The fenced-JSON-block regex

Both services fall back to
`re.search(r"` ``` `(?:json)?\s*(\{.*?\})\s*` ``` `", raw, re.DOTALL)`.
The matcher below implements exactly this fixed pattern: leftmost start
position, greedy optional `json` tag, lazy (shortest) brace group. -/

/-- Whitespace class `\s` for Python's `re` on ASCII text. -/
def isReWs (c : Char) : Bool :=
  c = ' ' || c = '\t' || c = '\n' || c = '\r' || c = '\x0b' || c = '\x0c'

def skipReWs : List Char → List Char
  | [] => []
  | c :: cs => if isReWs c then skipReWs cs else c :: cs

def ticks : List Char := ['\x60', '\x60', '\x60']

/-- Does `\s*` followed by three backticks match at the head? -/
def fenceClose (l : List Char) : Bool :=
  (dropLit ticks (skipReWs l)).isSome

/-- Lazy body of the `(\{.*?\})` group: stop at the first `}` whose
continuation matches `\s*` + three backticks. -/
def findBody : List Char → Option (List Char)
  | [] => none
  | c :: cs =>
    if c = '\x7d' ∧ fenceClose cs then some []
    else (findBody cs).map (fun b => c :: b)

/-- The `\s*(\{.*?\})\s*` + backticks tail, returning the captured group. -/
def fenceGroupAt (l : List Char) : Option (List Char) :=
  match skipReWs l with
  | '\x7b' :: body => (findBody body).map (fun b => '\x7b' :: (b ++ ['\x7d']))
  | _ => none

/-- Attempt the whole pattern at one start position: three backticks, then
(greedily) the optional `json` tag with backtracking. -/
def matchFenceAt (l : List Char) : Option (List Char) :=
  match dropLit ticks l with
  | none => none
  | some rest =>
    match dropLit ['j', 's', 'o', 'n'] rest with
    | some rest2 =>
      match fenceGroupAt rest2 with
      | some g => some g
      | none => fenceGroupAt rest
    | none => fenceGroupAt rest

/-- Leftmost search, one start position at a time, as `re.search` does. -/
def searchFence : List Char → Option (List Char)
  | [] => none
  | c :: cs =>
    match matchFenceAt (c :: cs) with
    | some g => some g
    | none => searchFence cs

/-- Result of `match.group(1)` of the fenced-block regex, `none` when `re.search`
finds no match. -/
def findFencedJson (s : String) : Option String :=
  (searchFence s.data).map String.mk

/-! ## Python-level errors

Raised exceptions are modelled as values of `PyError` carried in `Except`;
a total `.ok` result models "returns without raising". -/

inductive PyError where
  | jsonDecodeError : PyError
  | validationError : PyError
  | typeError : PyError
  | valueError (msg : String) : PyError
  | apiError : PyError
  | transportError : PyError
deriving DecidableEq

/-- Lookup in a JSON object as a Python dict built by `json.loads`:
duplicate keys resolve to the **last** occurrence. -/
def dictGet : List (String × Json) → String → Option Json
  | [], _ => none
  | (k, v) :: rest, key =>
    match dictGet rest key with
    | some v2 => some v2
    | none => if k = key then some v else none

def Json.asStr : Json → Option String
  | .str s => some s
  | _ => none

def Json.asStrList : Json → Option (List String)
  | .arr items => items.mapM Json.asStr
  | _ => none

/-! ## Safety Guardian (`backend/app/services/safety.py`) -/

/-- Model of `SafetyResult` from `backend/app/schemas/schemas.py`: `approved: bool`,
`checks: dict`, `feedback: str | None = None`. -/
structure SafetyResult where
  approved : Bool
  checks : List (String × Json)
  feedback : Option String

/-- Model of `SafetyResult(**data)`: pydantic validation of the parsed JSON.
Non-dict data fails (`**` needs a mapping); `approved` must be a boolean,
`checks` a dict; `feedback` is optional and may be `null`; extra keys are
ignored (pydantic default). -/
def SafetyResult.ofJson : Json → Except PyError SafetyResult
  | .obj fields =>
    match dictGet fields "approved", dictGet fields "checks" with
    | some (.bool b), some (.obj cs) =>
      match dictGet fields "feedback" with
      | none => .ok ⟨b, cs, none⟩
      | some .null => .ok ⟨b, cs, none⟩
      | some (.str s) => .ok ⟨b, cs, some s⟩
      | some _ => .error .validationError
    | _, _ => .error .validationError
  | _ => .error .typeError

def safetyRejectFeedback : String :=
  "Safety review response could not be parsed. Rejecting as precaution."

/-- Embedding of `review_safety` from `backend/app/services/safety.py`, lines 80–96,
as a function of the raw model-response text (the Anthropic call itself is
the orchestrator's oracle): direct `json.loads`; on failure a fenced-block
regex search; with a match, `json.loads` on the group **propagates** its
failure; with no match, the fail-closed rejection result is returned. -/
def review_safety (raw : String) : Except PyError SafetyResult :=
  match json_loads raw with
  | some data => SafetyResult.ofJson data
  | none =>
    match findFencedJson raw with
    | some g =>
      match json_loads g with
      | some data => SafetyResult.ofJson data
      | none => .error .jsonDecodeError
    | none => .ok ⟨false, [], some safetyRejectFeedback⟩

/-! ## Script Generator (`backend/app/services/generation.py`) -/

/-- Model of `GenerationResult` from `backend/app/schemas/schemas.py`: all seven
fields are required with no defaults. -/
structure GenerationResult where
  script : String
  voice_emotion : String
  voice_pacing : String
  scene_setting : String
  scene_mood : String
  ambient_sounds : List String
  background_track : String

/-- Model of `GenerationResult(**data)`: every field must be present and typed;
missing or mistyped fields raise; extra keys are ignored. -/
def GenerationResult.ofJson : Json → Except PyError GenerationResult
  | .obj fields =>
    match (dictGet fields "script").bind Json.asStr,
        (dictGet fields "voice_emotion").bind Json.asStr,
        (dictGet fields "voice_pacing").bind Json.asStr,
        (dictGet fields "scene_setting").bind Json.asStr,
        (dictGet fields "scene_mood").bind Json.asStr,
        (dictGet fields "ambient_sounds").bind Json.asStrList,
        (dictGet fields "background_track").bind Json.asStr with
    | some a, some b, some c, some d, some e, some f, some g =>
      .ok ⟨a, b, c, d, e, f, g⟩
    | _, _, _, _, _, _, _ => .error .validationError
  | _ => .error .typeError

/-- Embedding of `generate_script` from `backend/app/services/generation.py`, lines
96–108, as a function of the raw model-response text and the usage numbers
returned by the model call (the call itself is the orchestrator's oracle):
direct parse, then fenced-block extraction, then
`raise ValueError(f"Could not parse ...: \x7braw_text[:200]\x7d")`. -/
def generate_script (raw_text : String) (tokens_used elapsed_ms : Nat) :
    Except PyError (GenerationResult × Nat × Nat) :=
  let parsed : Except PyError Json :=
    match json_loads raw_text with
    | some data => .ok data
    | none =>
      match findFencedJson raw_text with
      | some g =>
        match json_loads g with
        | some data => .ok data
        | none => .error .jsonDecodeError
      | none =>
        .error (.valueError ("Could not parse generation response as JSON: "
          ++ String.mk (raw_text.data.take 200)))
  match parsed with
  | .error e => .error e
  | .ok data => (GenerationResult.ofJson data).map (fun r => (r, tokens_used, elapsed_ms))

/-! ## Speech synthesis and audio mixing (`backend/app/services/tts.py`) -/

/-- The `style_map` dict in `_emotion_to_style`, lines 108–118.  Style
intensities are exact decimal constants; ℚ represents them exactly. -/
def style_map : List (String × ℚ) :=
  [("warm", 0.4), ("excited", 0.7), ("gentle", 0.3),
   ("sleepy", 0.2), ("encouraging", 0.5), ("neutral", 0.3)]

/-- Embedding of `_emotion_to_style`: `style_map.get(emotion, 0.4)`. -/
def _emotion_to_style (emotion : String) : ℚ :=
  (style_map.lookup emotion).getD 0.4

/-- A pydub `AudioSegment`, abstracted to its length in milliseconds and
accumulated gain in dB — the only attributes the mixing code's control flow
and the spec's duration claims depend on. -/
structure AudioSegment where
  ms : Nat
  gain : Int
deriving DecidableEq

/-- Model of `segment - n`: volume down by `n` dB, length unchanged. -/
def AudioSegment.lower (s : AudioSegment) (db : Int) : AudioSegment :=
  { s with gain := s.gain - db }

/-- Model of `segment * n`: concatenate `n` copies. -/
def AudioSegment.loop (s : AudioSegment) (n : Nat) : AudioSegment :=
  { s with ms := s.ms * n }

/-- Model of `segment[:k]`: first `k` milliseconds. -/
def AudioSegment.firstMs (s : AudioSegment) (k : Nat) : AudioSegment :=
  { s with ms := min k s.ms }

/-- Model of `base.overlay(other)`: result keeps the base segment's length. -/
def AudioSegment.overlay (base _other : AudioSegment) : AudioSegment :=
  base

def AudioSegment.fade_in (s : AudioSegment) (_msArg : Nat) : AudioSegment := s

def AudioSegment.fade_out (s : AudioSegment) (_msArg : Nat) : AudioSegment := s

/-- Python `str.replace(pat, rep)`: leftmost, non-overlapping, all
occurrences.  Fuel is the input length, enough because every step consumes
at least one character (the source only calls this with a nonempty
pattern). -/
def replaceFrom : Nat → List Char → List Char → List Char → List Char
  | 0, s, _, _ => s
  | _ + 1, [], _, _ => []
  | fuel + 1, c :: cs, pat, rep =>
    if pat ≠ [] ∧ pat.isPrefixOf (c :: cs) then
      rep ++ replaceFrom fuel ((c :: cs).drop pat.length) pat rep
    else c :: replaceFrom fuel cs pat rep

def pyReplace (s pat rep : String) : String :=
  String.mk (replaceFrom (s.data.length + 1) s.data pat.data rep.data)

/-- Oracle for the filesystem/pydub effects inside `mix_with_background`:
loaded segment lengths, background-file existence, and whether each
fallible library operation raises. -/
structure MixEnv where
  voice_load : Except PyError Nat
  bg_exists : Bool
  bg_load : Except PyError Nat
  export_ok : Except PyError Unit

/-- Embedding of `mix_with_background` from `backend/app/services/tts.py`, lines 69–98.
Returns the path handed back to the orchestrator together with the exported
mixed segment when mixing happened (`none` on every fallback path).  All
exceptions — load failures, the `ZeroDivisionError` from
`len(voice) // len(background)` on an empty background, export failures —
are caught by the `except` and fall back to the voice path.  The function
itself never raises (it is total). -/
def mix_with_background (env : MixEnv) (voice_path _background_track : String) :
    String × Option AudioSegment :=
  match env.voice_load with
  | .error _ => (voice_path, none)
  | .ok vms =>
    let voice : AudioSegment := ⟨vms, 0⟩
    if env.bg_exists then
      match env.bg_load with
      | .error _ => (voice_path, none)
      | .ok bms =>
        let background := AudioSegment.lower ⟨bms, 0⟩ 18
        let step (bg : AudioSegment) : String × Option AudioSegment :=
          let bg2 := bg.firstMs voice.ms
          let mixed := bg2.overlay voice
          let mixed2 := (mixed.fade_in 1000).fade_out 2000
          match env.export_ok with
          | .error _ => (voice_path, none)
          | .ok _ => (pyReplace voice_path ".mp3" "_mixed.mp3", some mixed2)
        if background.ms < voice.ms then
          if background.ms = 0 then (voice_path, none)
          else step (background.loop (voice.ms / background.ms + 1))
        else step background
    else (voice_path, none)

/-! ## Orchestrator (`backend/app/services/orchestrator.py`) -/

/-- Model of `ClipStatus` from `backend/app/models/models.py`. -/
inductive ClipStatus where
  | pending | generating | safety_review | safety_failed
  | synthesizing | ready | approved | rejected | failed
deriving DecidableEq

/-- The dict assigned to `clip.scene_description`. -/
structure SceneDescription where
  setting : String
  mood : String
  ambient_sounds : List String

/-- The dict assigned to `clip.voice_params`. -/
structure VoiceParams where
  emotion : String
  pacing : String
  background_track : String

/-- The mutable columns of the `clips` row that `generate_clip` reads or
writes (`backend/app/models/models.py`). -/
structure Clip where
  id : String
  scenario_type : String
  parent_note : Option String
  status : ClipStatus
  generated_script : Option String
  scene_description : Option SceneDescription
  voice_params : Option VoiceParams
  safety_status : Option String
  safety_feedback : Option String
  safety_checks : Option (List (String × Json))
  audio_url : Option String
  duration_seconds : Option ℚ
  generation_time_ms : Option Nat
  llm_tokens_used : Option Nat

/-- A `clip_assets` row as built in `generate_clip`. -/
structure ClipAsset where
  clip_id : String
  audio_file_path : String
  mixed_audio_path : Option String
  duration_seconds : ℚ
  tts_provider : String

/-- Observable actions of one `generate_clip` run, in program order:
status-field assignments, `db.commit()` calls, stage invocations, and
`db.add(asset)`. -/
inductive Event where
  | setStatus (s : ClipStatus) : Event
  | commit : Event
  | stageGeneration : Event
  | stageSafety : Event
  | stageTTS : Event
  | stageMix : Event
  | addAsset : Event
deriving DecidableEq

/-- Oracle for one pipeline run: the database lookups and the outcome of
each external call.  `gen_api` and `safety_api` carry the raw text of the
model response (or a raised provider error); `tts` carries
`synthesize_speech`'s `(voice_path, duration)` or a raised transport error.
The character and child rows are read only to build prompts (consumed by
the oracles), so their lookup is not modelled separately. -/
structure PipelineEnv where
  clip : Option Clip
  scenario_found : Bool
  gen_api : Except PyError (String × Nat)
  gen_elapsed_ms : Nat
  safety_api : Except PyError String
  tts : Except PyError (String × ℚ)
  mix : MixEnv
  total_time_ms : Nat

/-- Step 1 as seen by the orchestrator: the model call then
`generate_script`'s parsing/validation. -/
def genStage (env : PipelineEnv) : Except PyError (GenerationResult × Nat × Nat) :=
  match env.gen_api with
  | .error e => .error e
  | .ok (raw, tokens) => generate_script raw tokens env.gen_elapsed_ms

/-- Step 2 as seen by the orchestrator: the model call then
`review_safety`'s parsing/validation. -/
def safetyStage (env : PipelineEnv) : Except PyError SafetyResult :=
  match env.safety_api with
  | .error e => .error e
  | .ok raw => review_safety raw

/-- Result of one `generate_clip` run: the returned-or-raised outcome, the
final in-memory clip (`none` only when the initial `db.get` found no row),
the committed snapshots in order, the event trace, and the
`clip_assets` rows added. -/
structure RunResult where
  result : Except PyError Clip
  clip : Option Clip
  commits : List Clip
  events : List Event
  assets : List ClipAsset

/-- The `except Exception` handler at the orchestrator boundary: set
status `FAILED`, commit, re-raise. -/
def failRun (e : PyError) (c : Clip) (commits : List Clip) (events : List Event)
    (assets : List ClipAsset) : RunResult :=
  let cf := { c with status := ClipStatus.failed }
  ⟨.error e, some cf, commits ++ [cf],
    events ++ [.setStatus .failed, .commit], assets⟩

/-- Embedding of `generate_clip` from `backend/app/services/orchestrator.py`, lines
18–132, translated statement by statement.  Commits snapshot the in-memory
clip; the `if not scenario: raise ValueError` check precedes the `try`
block, so no status is written on that path. -/
def generate_clip (env : PipelineEnv) : RunResult :=
  match env.clip with
  | none => ⟨.error (.valueError "Clip not found"), none, [], [], []⟩
  | some clip0 =>
    match env.scenario_found with
    | false =>
      ⟨.error (.valueError ("Scenario type " ++ clip0.scenario_type ++ " not found")),
        some clip0, [], [], []⟩
    | true =>
      let c1 := { clip0 with status := ClipStatus.generating }
      let ev1 : List Event := [.setStatus .generating, .commit, .stageGeneration]
      match genStage env with
      | .error e => failRun e c1 [c1] ev1 []
      | .ok (gres, tokens, _gen_ms) =>
        let c2 := { c1 with
          generated_script := some gres.script,
          scene_description :=
            some ⟨gres.scene_setting, gres.scene_mood, gres.ambient_sounds⟩,
          voice_params :=
            some ⟨gres.voice_emotion, gres.voice_pacing, gres.background_track⟩,
          llm_tokens_used := some tokens }
        let c3 := { c2 with status := ClipStatus.safety_review }
        let ev3 := ev1 ++ [.commit, .setStatus .safety_review, .commit, .stageSafety]
        match safetyStage env with
        | .error e => failRun e c3 [c1, c2, c3] ev3 []
        | .ok sres =>
          let c4 := { c3 with
            safety_status := some (if sres.approved then "approved" else "rejected"),
            safety_feedback := sres.feedback,
            safety_checks := some sres.checks }
          match sres.approved with
          | false =>
            let c5 := { c4 with status := ClipStatus.safety_failed }
            ⟨.ok c5, some c5, [c1, c2, c3, c5],
              ev3 ++ [.setStatus .safety_failed, .commit], []⟩
          | true =>
            let c5 := { c4 with status := ClipStatus.synthesizing }
            let ev5 := ev3 ++ [.setStatus .synthesizing, .commit, .stageTTS]
            match env.tts with
            | .error e => failRun e c5 [c1, c2, c3, c5] ev5 []
            | .ok (voice_path, duration) =>
              let final_path := (mix_with_background env.mix voice_path
                gres.background_track).1
              let asset : ClipAsset :=
                ⟨clip0.id, voice_path,
                  if final_path = voice_path then none else some final_path,
                  duration, "openai"⟩
              let c6 := { c5 with
                audio_url := some ("/api/clips/" ++ clip0.id ++ "/audio"),
                duration_seconds := some duration,
                status := ClipStatus.ready,
                generation_time_ms := some env.total_time_ms }
              ⟨.ok c6, some c6, [c1, c2, c3, c5, c6],
                ev5 ++ [.stageMix, .addAsset, .setStatus .ready, .commit], [asset]⟩

/-- The statuses assigned during a run, in order. -/
def statusWrites (events : List Event) : List ClipStatus :=
  events.filterMap fun e =>
    match e with
    | .setStatus s => some s
    | _ => none

/-- Given a transition relation, check every consecutive pair of a status
history. -/
def transitionsOk (next : ClipStatus → ClipStatus → Bool) : List ClipStatus → Bool
  | a :: b :: rest => next a b && transitionsOk next (b :: rest)
  | _ => true

/-- After every write of status `t`, only `db.commit()` may still happen:
no stage invocation, no further status write, no asset add. -/
def quiescentAfter (t : ClipStatus) : List Event → Bool
  | [] => true
  | Event.setStatus s :: rest =>
    (if s = t then rest.all (fun e => e = Event.commit) else true)
      && quiescentAfter t rest
  | _ :: rest => quiescentAfter t rest

/-- The transition relation asserted by the spec's state-machine sentence,
read literally: from PENDING only GENERATING; from SAFETY_REVIEW only
SAFETY_FAILED or SYNTHESIZING; FAILED and SAFETY_FAILED terminal; never
back to PENDING. -/
def claimNext : ClipStatus → ClipStatus → Bool
  | .pending, b => b == .generating
  | .safety_review, b => b == .safety_failed || b == .synthesizing
  | .failed, _ => false
  | .safety_failed, _ => false
  | _, b => !(b == .pending)

/-- The relation `claimNext` amended minimally: the safety stage itself can raise (a
provider error, a fenced block with invalid JSON, a mis-shaped result), in
which case SAFETY_REVIEW transitions to FAILED. -/
def amendedNext : ClipStatus → ClipStatus → Bool
  | .pending, b => b == .generating
  | .safety_review, b => b == .safety_failed || b == .synthesizing || b == .failed
  | .failed, _ => false
  | .safety_failed, _ => false
  | _, b => !(b == .pending)

/-- Audio-field gating check for a set of clip snapshots: a snapshot whose
`safety_status` is not "approved" has no `audio_url` and no
`duration_seconds`. -/
def audioGatedOk (cs : List Clip) : Bool :=
  cs.all fun c =>
    c.safety_status == some "approved" ||
      (c.audio_url == none && c.duration_seconds == none)

/-! ## Concrete fixtures

A fresh clip row as created by the request layer (status PENDING, no
outputs), one well-formed generation response, one well-formed safety
response, and pipeline environments exercising particular branches. -/

def clip0C : Clip :=
  { id := "clip-1", scenario_type := "bedtime", parent_note := none,
    status := .pending, generated_script := none, scene_description := none,
    voice_params := none, safety_status := none, safety_feedback := none,
    safety_checks := none, audio_url := none, duration_seconds := none,
    generation_time_ms := none, llm_tokens_used := none }

def goodGenRaw : String :=
  "\x7b\"script\": \"Hello Thomas... [warmly] time to sleep.\", \"voice_emotion\": \"sleepy\", \"voice_pacing\": \"slow_and_gentle\", \"scene_setting\": \"cozy burrow\", \"scene_mood\": \"cozy\", \"ambient_sounds\": [\"crickets\"], \"background_track\": \"lullaby\"\x7d"

def gResC : GenerationResult :=
  { script := "Hello Thomas... [warmly] time to sleep.",
    voice_emotion := "sleepy", voice_pacing := "slow_and_gentle",
    scene_setting := "cozy burrow", scene_mood := "cozy",
    ambient_sounds := ["crickets"], background_track := "lullaby" }

def goodSafetyRaw : String :=
  "\x7b\"approved\": true, \"checks\": \x7b\x7d, \"feedback\": null\x7d"

/-- A safety response whose only JSON is a fenced block with invalid
contents: `json.loads` on the captured group raises. -/
def fencedBadRaw : String := "```json\n\x7boops\x7d\n```"

def mixEnvOk : MixEnv :=
  { voice_load := .ok 40000, bg_exists := false,
    bg_load := .ok 1, export_ok := .ok () }

/-- Happy path: both model calls return well-formed JSON, TTS succeeds,
no background track is present. -/
def envHappy : PipelineEnv :=
  { clip := some clip0C, scenario_found := true,
    gen_api := .ok (goodGenRaw, 321), gen_elapsed_ms := 7,
    safety_api := .ok goodSafetyRaw, tts := .ok ("v.mp3", 40),
    mix := mixEnvOk, total_time_ms := 5 }

/-- The safety model call itself raises a provider error. -/
def envSafetyRaises : PipelineEnv :=
  { envHappy with safety_api := .error .apiError }

/-- The safety response is a fenced block with invalid JSON contents. -/
def envFencedBad : PipelineEnv :=
  { envHappy with safety_api := .ok fencedBadRaw }

/-- The safety response is prose: no JSON, no fenced block. -/
def envSafetyProse : PipelineEnv :=
  { envHappy with safety_api := .ok "I cannot review this, sorry." }

/-- The TTS call raises a transport error. -/
def envTtsRaises : PipelineEnv :=
  { envHappy with tts := .error .transportError }

/-- The scenario-type key matches no stored Scenario. -/
def envNoScenario : PipelineEnv :=
  { envHappy with scenario_found := false }

/-! ## Helper lemmas on `replaceFrom` (for the new-file guarantee) -/

theorem isPrefixOf_true_iff (l1 l2 : List Char) :
    l1.isPrefixOf l2 = true ↔ l1 <+: l2 := List.isPrefixOf_iff_prefix

theorem length_replaceFrom_ge (pat rep : List Char) (hlen : pat.length ≤ rep.length) :
    ∀ (fuel : Nat) (s : List Char), s.length ≤ (replaceFrom fuel s pat rep).length := by
  intro fuel
  induction fuel with
  | zero => intro s; simp [replaceFrom]
  | succ n ih =>
    intro s
    cases s with
    | nil => simp [replaceFrom]
    | cons c cs =>
      simp only [replaceFrom]
      split
      · next h =>
        have hp : pat <+: c :: cs := (isPrefixOf_true_iff pat (c :: cs)).mp h.2
        have hple := hp.length_le
        have hrec := ih ((c :: cs).drop pat.length)
        simp only [List.length_append, List.length_drop, List.length_cons] at *
        omega
      · next _ =>
        have hrec := ih cs
        simp only [List.length_cons]
        omega

theorem length_replaceFrom_gt (pat rep : List Char) (hne : pat ≠ [])
    (hlen : pat.length < rep.length) :
    ∀ (fuel : Nat) (s : List Char), s.length < fuel → pat <:+: s →
      s.length < (replaceFrom fuel s pat rep).length := by
  intro fuel
  induction fuel with
  | zero => intro s hf _; exact absurd hf (Nat.not_lt_zero _)
  | succ n ih =>
    intro s hf hinf
    cases s with
    | nil =>
      obtain ⟨s1, t1, hst⟩ := hinf
      have h1 := List.append_eq_nil.mp hst
      have h2 := List.append_eq_nil.mp h1.1
      exact absurd h2.2 hne
    | cons c cs =>
      simp only [replaceFrom]
      split
      · next h =>
        have hp : pat <+: c :: cs := (isPrefixOf_true_iff pat (c :: cs)).mp h.2
        have hple := hp.length_le
        have hrec := length_replaceFrom_ge pat rep (le_of_lt hlen) n
          ((c :: cs).drop pat.length)
        simp only [List.length_append, List.length_drop, List.length_cons] at *
        omega
      · next h =>
        have hinf2 : pat <:+: cs := by
          obtain ⟨s1, t1, hst⟩ := hinf
          cases s1 with
          | nil =>
            exfalso
            apply h
            refine ⟨hne, (isPrefixOf_true_iff pat (c :: cs)).mpr ⟨t1, ?_⟩⟩
            simpa using hst
          | cons x s1 =>
            simp only [List.cons_append] at hst
            exact ⟨s1, t1, (List.cons_eq_cons.mp hst).2⟩
        have hcs : cs.length < n := by
          simp only [List.length_cons] at hf
          omega
        have hrec := ih cs hcs hinf2
        simp only [List.length_cons]
        omega

/-- Replacing `.mp3` by the strictly longer `_mixed.mp3` in a path that
contains `.mp3` yields a different string. -/
theorem pyReplace_mp3_ne (vp : String) (h : ".mp3".data <:+ vp.data) :
    pyReplace vp ".mp3" "_mixed.mp3" ≠ vp := by
  intro heq
  obtain ⟨t, ht⟩ := h
  have hinf : ".mp3".data <:+: vp.data := ⟨t, [], by simp [ht]⟩
  have hgt := length_replaceFrom_gt ".mp3".data "_mixed.mp3".data (by decide) (by decide)
    (vp.data.length + 1) vp.data (Nat.lt_succ_self _) hinf
  have hd : replaceFrom (vp.data.length + 1) vp.data ".mp3".data "_mixed.mp3".data
      = vp.data := congrArg String.data heq
  rw [hd] at hgt
  exact lt_irrefl _ hgt

/-! ## Claims about the Safety Guardian -/

/-- C1: a safety-review response that is not valid JSON and contains no
fenced JSON block makes `review_safety` return (not raise) a `SafetyResult`
with `approved = false`, empty `checks`, and the fixed
could-not-be-parsed feedback message — in particular never `approved = true`. -/
theorem C1_review_safety_fail_closed (raw : String)
    (h1 : json_loads raw = none) (h2 : findFencedJson raw = none) :
    review_safety raw =
      .ok { approved := false, checks := [], feedback := some safetyRejectFeedback } := by
  simp [review_safety, h1, h2]

theorem C1_review_safety_fail_closed_witness :
    review_safety "I cannot review this, sorry." =
      .ok { approved := false, checks := [], feedback := some safetyRejectFeedback } :=
  C1_review_safety_fail_closed "I cannot review this, sorry." rfl rfl

/-! ## Claims about the emotion-to-style table -/

/-- C9 counterexample: the code's `style_map` also contains the key
`neutral`, absent from the claim's five-entry table; it maps to 0.3, not to
the claimed default 0.4 for values outside that table. -/
theorem C9_emotion_table_counterexample :
    "neutral" ∉ ["warm", "excited", "gentle", "sleepy", "encouraging"] ∧
    _emotion_to_style "neutral" = 0.3 ∧
    _emotion_to_style "neutral" ≠ 0.4 := by
  refine ⟨by decide, ?_, ?_⟩
  · simp [_emotion_to_style, style_map, List.lookup]
  · have h3 : _emotion_to_style "neutral" = 0.3 := by
      simp [_emotion_to_style, style_map, List.lookup]
    rw [h3]
    norm_num

/-- C9 amended: the fixed table maps warm to 0.4, excited to 0.7, gentle to
0.3, sleepy to 0.2, encouraging to 0.5 **and neutral to 0.3**; every
emotion outside these six keys maps to the default 0.4, without error. -/
theorem C9_emotion_table_amended :
    _emotion_to_style "warm" = 0.4 ∧
    _emotion_to_style "excited" = 0.7 ∧
    _emotion_to_style "gentle" = 0.3 ∧
    _emotion_to_style "sleepy" = 0.2 ∧
    _emotion_to_style "encouraging" = 0.5 ∧
    _emotion_to_style "neutral" = 0.3 ∧
    ∀ e : String,
      e ∉ ["warm", "excited", "gentle", "sleepy", "encouraging", "neutral"] →
      _emotion_to_style e = 0.4 := by
  refine ⟨?_, ?_, ?_, ?_, ?_, ?_, ?_⟩
  · simp [_emotion_to_style, style_map, List.lookup]
  · simp [_emotion_to_style, style_map, List.lookup]
  · simp [_emotion_to_style, style_map, List.lookup]
  · simp [_emotion_to_style, style_map, List.lookup]
  · simp [_emotion_to_style, style_map, List.lookup]
  · simp [_emotion_to_style, style_map, List.lookup]
  · intro e he
    simp only [List.mem_cons, List.not_mem_nil, or_false, not_or] at he
    obtain ⟨n1, n2, n3, n4, n5, n6⟩ := he
    simp [_emotion_to_style, style_map, List.lookup,
      beq_eq_false_iff_ne.mpr n1, beq_eq_false_iff_ne.mpr n2,
      beq_eq_false_iff_ne.mpr n3, beq_eq_false_iff_ne.mpr n4,
      beq_eq_false_iff_ne.mpr n5, beq_eq_false_iff_ne.mpr n6]

theorem C9_emotion_table_amended_witness :
    _emotion_to_style "surprised" = 0.4 :=
  C9_emotion_table_amended.2.2.2.2.2.2 "surprised" (by decide)

/-! ## Claims about the audio mixer -/

/-- C6: with the background file present and of nonzero length, mixing
always succeeds and the exported composite has exactly the voice's
duration — whether the background is shorter (looped) or longer
(truncated) — carries the fixed −18 dB attenuation, and is written under a
path distinct from the voice file's. -/
theorem C6_mix_trim_invariant (env : MixEnv) (vp track : String) (D B : Nat)
    (hv : env.voice_load = .ok D) (hbe : env.bg_exists = true)
    (hb : env.bg_load = .ok B) (hBpos : 0 < B) (hex : env.export_ok = .ok ())
    (hmp3 : ".mp3".data <:+ vp.data) :
    mix_with_background env vp track =
      (pyReplace vp ".mp3" "_mixed.mp3", some ⟨D, -18⟩) ∧
    pyReplace vp ".mp3" "_mixed.mp3" ≠ vp := by
  refine ⟨?_, pyReplace_mp3_ne vp hmp3⟩
  simp only [mix_with_background, hv, hbe, hb, hex, AudioSegment.lower,
    AudioSegment.loop, AudioSegment.firstMs, AudioSegment.overlay,
    AudioSegment.fade_in, AudioSegment.fade_out, if_true]
  split
  · next hlt =>
    have hB0 : ¬ B = 0 := by omega
    have key : D < B * (D / B + 1) :=
      calc D = B * (D / B) + D % B := (Nat.div_add_mod D B).symm
        _ < B * (D / B) + B := Nat.add_lt_add_left (Nat.mod_lt D hBpos) _
        _ = B * (D / B + 1) := (Nat.mul_succ B (D / B)).symm
    simp [hB0, Nat.min_eq_left (le_of_lt key)]
  · next hge =>
    simp [Nat.min_eq_left (Nat.le_of_not_lt hge)]

theorem C6_mix_trim_invariant_witness :
    mix_with_background
        { voice_load := .ok 40000, bg_exists := true,
          bg_load := .ok 5000, export_ok := .ok () } "voice.mp3" "lullaby" =
      (pyReplace "voice.mp3" ".mp3" "_mixed.mp3", some ⟨40000, -18⟩) ∧
    pyReplace "voice.mp3" ".mp3" "_mixed.mp3" ≠ "voice.mp3" :=
  C6_mix_trim_invariant _ "voice.mp3" "lullaby" 40000 5000 rfl rfl rfl
    (by decide) rfl ⟨"voice".data, rfl⟩

/-- C7: every fallback inside `mix_with_background` — missing background
file, any load failure, the zero-length-background division error, an
export failure — returns the input voice path with nothing exported (the
Lean model is total, i.e. the function never raises); and at the pipeline
level, whenever TTS succeeded, the clip completes with status READY no
matter what the mixing environment did. -/
theorem C7_mix_failure_never_fails_pipeline :
    (∀ (env : MixEnv) (vp track : String),
      (env.bg_exists = false → mix_with_background env vp track = (vp, none)) ∧
      (∀ e, env.voice_load = .error e → mix_with_background env vp track = (vp, none)) ∧
      (∀ e, env.bg_load = .error e → mix_with_background env vp track = (vp, none)) ∧
      (∀ D, env.voice_load = .ok D → env.bg_load = .ok 0 → 0 < D →
        mix_with_background env vp track = (vp, none)) ∧
      (∀ e, env.export_ok = .error e → mix_with_background env vp track = (vp, none))) ∧
    (∀ (env : PipelineEnv) (c0 : Clip) (g : GenerationResult) (tk ms : Nat)
        (s : SafetyResult) (vpath : String) (dur : ℚ),
      env.clip = some c0 → env.scenario_found = true →
      genStage env = .ok (g, tk, ms) → safetyStage env = .ok s →
      s.approved = true → env.tts = .ok (vpath, dur) →
      ∃ c, (generate_clip env).result = .ok c ∧ c.status = .ready) := by
  constructor
  · intro env vp track
    refine ⟨?_, ?_, ?_, ?_, ?_⟩
    · intro hbe
      cases hv : env.voice_load with
      | error e => simp [mix_with_background, hv]
      | ok vms => simp [mix_with_background, hv, hbe]
    · intro e hv
      simp [mix_with_background, hv]
    · intro e hb
      cases hv : env.voice_load with
      | error e2 => simp [mix_with_background, hv]
      | ok vms =>
        cases hbe : env.bg_exists with
        | false => simp [mix_with_background, hv, hbe]
        | true => simp [mix_with_background, hv, hbe, hb]
    · intro D hv hb hD
      cases hbe : env.bg_exists with
      | false => simp [mix_with_background, hv, hbe]
      | true =>
        simp only [mix_with_background, hv, hbe, hb, AudioSegment.lower, if_true]
        have : (0 : Nat) < D := hD
        simp [show (0 : Nat) < D from hD]
    · intro e hex
      cases hv : env.voice_load with
      | error e2 => simp [mix_with_background, hv]
      | ok vms =>
        cases hbe : env.bg_exists with
        | false => simp [mix_with_background, hv, hbe]
        | true =>
          cases hb : env.bg_load with
          | error e3 => simp [mix_with_background, hv, hbe, hb]
          | ok bms =>
            simp only [mix_with_background, hv, hbe, hb, hex,
              AudioSegment.lower, AudioSegment.loop, AudioSegment.firstMs,
              AudioSegment.overlay, AudioSegment.fade_in, AudioSegment.fade_out,
              if_true]
            split
            · split <;> simp
            · simp
  · intro env c0 g tk ms s vpath dur hclip hscen hg hs happ htts
    simp only [generate_clip, hclip, hscen, hg, hs, happ, htts]
    exact ⟨_, rfl, rfl⟩

set_option maxRecDepth 40000 in
theorem C7_mix_failure_never_fails_pipeline_witness :
    mix_with_background mixEnvOk "v.mp3" "lullaby" = ("v.mp3", none) ∧
    ∃ c, (generate_clip envHappy).result = .ok c ∧ c.status = .ready :=
  ⟨(C7_mix_failure_never_fails_pipeline.1 mixEnvOk "v.mp3" "lullaby").1 rfl,
    C7_mix_failure_never_fails_pipeline.2 envHappy clip0C gResC 321 7
      ⟨true, [], none⟩ "v.mp3" 40 rfl rfl rfl rfl rfl rfl⟩

/-! ## Claims about the orchestrator's scenario lookup -/

/-- C10: with no stored Scenario matching the clip's `scenario_type`,
`generate_clip` raises the explicit lookup `ValueError` before any stage
begins: no events, no commits, no assets, and the clip row is exactly as it
was on entry. -/
theorem C10_unknown_scenario_raises_before_stages
    (env : PipelineEnv) (c0 : Clip) (hclip : env.clip = some c0)
    (hscen : env.scenario_found = false) :
    (generate_clip env).result =
      .error (.valueError ("Scenario type " ++ c0.scenario_type ++ " not found")) ∧
    (generate_clip env).clip = some c0 ∧
    (generate_clip env).events = [] ∧
    (generate_clip env).commits = [] ∧
    (generate_clip env).assets = [] := by
  simp [generate_clip, hclip, hscen]

theorem C10_unknown_scenario_witness :
    (generate_clip envNoScenario).result =
      .error (.valueError ("Scenario type " ++ clip0C.scenario_type ++ " not found")) ∧
    (generate_clip envNoScenario).clip = some clip0C ∧
    (generate_clip envNoScenario).events = [] ∧
    (generate_clip envNoScenario).commits = [] ∧
    (generate_clip envNoScenario).assets = [] :=
  C10_unknown_scenario_raises_before_stages envNoScenario clip0C rfl rfl

/-! ## Claims about the orchestrator's audio-field gating -/

/-- C3: starting from a clip with no audio fields, every snapshot the run
leaves behind — the final in-memory clip and every committed snapshot —
has `audio_url`/`duration_seconds` set only if its `safety_status` is
"approved"; the fields are written only on the approved branch. -/
theorem C3_audio_fields_gated (env : PipelineEnv) (c0 : Clip)
    (hclip : env.clip = some c0) (h0a : c0.audio_url = none)
    (h0d : c0.duration_seconds = none) :
    audioGatedOk ((generate_clip env).clip.toList ++ (generate_clip env).commits)
      = true := by
  cases hscen : env.scenario_found with
  | false => simp [generate_clip, hclip, hscen, audioGatedOk, h0a, h0d]
  | true =>
    cases hg : genStage env with
    | error e =>
      simp [generate_clip, hclip, hscen, hg, failRun, audioGatedOk, h0a, h0d]
    | ok trip =>
      obtain ⟨g, tk, ms⟩ := trip
      cases hs : safetyStage env with
      | error e =>
        simp [generate_clip, hclip, hscen, hg, hs, failRun, audioGatedOk, h0a, h0d]
      | ok s =>
        cases happ : s.approved with
        | false =>
          simp [generate_clip, hclip, hscen, hg, hs, happ, audioGatedOk, h0a, h0d]
        | true =>
          cases htts : env.tts with
          | error e =>
            simp [generate_clip, hclip, hscen, hg, hs, happ, htts, failRun,
              audioGatedOk, h0a, h0d]
          | ok vd =>
            obtain ⟨vpath, dur⟩ := vd
            simp [generate_clip, hclip, hscen, hg, hs, happ, htts,
              audioGatedOk, h0a, h0d]

set_option maxRecDepth 40000 in
theorem C3_audio_fields_gated_witness :
    audioGatedOk ((generate_clip envHappy).clip.toList ++ (generate_clip envHappy).commits)
      = true :=
  C3_audio_fields_gated envHappy clip0C rfl rfl rfl

/-! ## Claims about the status state machine -/

set_option maxRecDepth 40000 in
/-- C4 counterexample: when the safety-review call itself raises (here a
provider error), the status written right after SAFETY_REVIEW is FAILED —
a transition the claim's graph ("from SAFETY_REVIEW only SAFETY_FAILED or
SYNTHESIZING") excludes. -/
theorem C4_forward_only_counterexample :
    clip0C.status = ClipStatus.pending ∧
    statusWrites (generate_clip envSafetyRaises).events =
      [.generating, .safety_review, .failed] ∧
    transitionsOk claimNext
      (clip0C.status :: statusWrites (generate_clip envSafetyRaises).events) = false := by
  refine ⟨rfl, ?_, ?_⟩ <;> decide

/-- C4 amended: starting from PENDING, the statuses written during a run
follow the claimed graph amended with the one transition the claim
omitted — SAFETY_REVIEW may also go directly to FAILED when the safety
stage raises.  After a FAILED or SAFETY_FAILED write only the final commit
happens (no stage call, no status write, no asset add), and PENDING is
never written. -/
theorem C4_forward_only_amended (env : PipelineEnv) (c0 : Clip)
    (hclip : env.clip = some c0) (hp : c0.status = .pending) :
    transitionsOk amendedNext
      (c0.status :: statusWrites (generate_clip env).events) = true ∧
    quiescentAfter .failed (generate_clip env).events = true ∧
    quiescentAfter .safety_failed (generate_clip env).events = true ∧
    (generate_clip env).events.contains (Event.setStatus .pending) = false := by
  cases hscen : env.scenario_found with
  | false =>
    simp only [generate_clip, hclip, hscen, hp]
    decide
  | true =>
    cases hg : genStage env with
    | error e =>
      simp only [generate_clip, hclip, hscen, hg, failRun, hp]
      decide
    | ok trip =>
      obtain ⟨g, tk, ms⟩ := trip
      cases hs : safetyStage env with
      | error e =>
        simp only [generate_clip, hclip, hscen, hg, hs, failRun, hp]
        decide
      | ok s =>
        cases happ : s.approved with
        | false =>
          simp only [generate_clip, hclip, hscen, hg, hs, happ, hp]
          decide
        | true =>
          cases htts : env.tts with
          | error e =>
            simp only [generate_clip, hclip, hscen, hg, hs, happ, htts, failRun, hp]
            decide
          | ok vd =>
            obtain ⟨vpath, dur⟩ := vd
            simp only [generate_clip, hclip, hscen, hg, hs, happ, htts, hp]
            decide

set_option maxRecDepth 40000 in
theorem C4_forward_only_amended_witness :
    transitionsOk amendedNext
      (clip0C.status :: statusWrites (generate_clip envHappy).events) = true ∧
    quiescentAfter .failed (generate_clip envHappy).events = true ∧
    quiescentAfter .safety_failed (generate_clip envHappy).events = true ∧
    (generate_clip envHappy).events.contains (Event.setStatus .pending) = false :=
  C4_forward_only_amended envHappy clip0C rfl rfl

/-! ## Claims about the orchestrator's failure boundary -/

/-- C5: once the pipeline body has been entered, any uncaught stage
exception is converted at the orchestrator boundary: the final clip has
status FAILED, the FAILED clip is the last committed snapshot, and the
same exception value is re-raised.  In particular a TTS transport error
ends the run with status FAILED, that exception re-raised, and no
ClipAsset row added. -/
theorem C5_uncaught_exception_failed_and_reraised (env : PipelineEnv) (c0 : Clip)
    (hclip : env.clip = some c0) (hscen : env.scenario_found = true) :
    (∀ e, (generate_clip env).result = .error e →
      ∃ cf, (generate_clip env).clip = some cf ∧ cf.status = .failed ∧
        (generate_clip env).commits.getLast? = some cf) ∧
    (∀ (e : PyError) (g : GenerationResult) (tk ms : Nat) (s : SafetyResult),
      genStage env = .ok (g, tk, ms) → safetyStage env = .ok s →
      s.approved = true → env.tts = .error e →
      (generate_clip env).result = .error e ∧
      (∃ cf, (generate_clip env).clip = some cf ∧ cf.status = .failed) ∧
      (generate_clip env).assets = []) := by
  constructor
  · intro e hres
    cases hg : genStage env with
    | error e2 =>
      simp only [generate_clip, hclip, hscen, hg, failRun] at hres ⊢
      exact ⟨_, rfl, rfl, rfl⟩
    | ok trip =>
      obtain ⟨g, tk, ms⟩ := trip
      cases hs : safetyStage env with
      | error e2 =>
        simp only [generate_clip, hclip, hscen, hg, hs, failRun] at hres ⊢
        exact ⟨_, rfl, rfl, rfl⟩
      | ok s =>
        cases happ : s.approved with
        | false =>
          simp only [generate_clip, hclip, hscen, hg, hs, happ] at hres
          exact absurd hres (by simp)
        | true =>
          cases htts : env.tts with
          | error e2 =>
            simp only [generate_clip, hclip, hscen, hg, hs, happ, htts, failRun]
              at hres ⊢
            exact ⟨_, rfl, rfl, rfl⟩
          | ok vd =>
            obtain ⟨vpath, dur⟩ := vd
            simp only [generate_clip, hclip, hscen, hg, hs, happ, htts] at hres
            exact absurd hres (by simp)
  · intro e g tk ms s hg hs happ htts
    simp only [generate_clip, hclip, hscen, hg, hs, happ, htts, failRun]
    exact ⟨by trivial, ⟨_, by trivial, by trivial⟩, by trivial⟩

set_option maxRecDepth 40000 in
theorem C5_uncaught_exception_witness :
    (generate_clip envTtsRaises).result = .error .transportError ∧
    (∃ cf, (generate_clip envTtsRaises).clip = some cf ∧ cf.status = .failed) ∧
    (generate_clip envTtsRaises).assets = [] :=
  (C5_uncaught_exception_failed_and_reraised envTtsRaises clip0C rfl rfl).2
    .transportError gResC 321 7 ⟨true, [], none⟩ rfl rfl rfl rfl

/-! ## Claims about malformed safety output at the pipeline level -/

set_option maxRecDepth 40000 in
/-- C2 counterexample: a safety response whose only JSON is a fenced block
with invalid contents is "not parseable structured data after best-effort
extraction", yet the run ends with the clip in FAILED (the inner
`json.loads` raises and propagates), not SAFETY_FAILED. -/
theorem C2_malformed_safety_counterexample :
    json_loads fencedBadRaw = none ∧
    findFencedJson fencedBadRaw = some "\x7boops\x7d" ∧
    (generate_clip envFencedBad).result = .error .jsonDecodeError ∧
    (generate_clip envFencedBad).clip.map Clip.status = some .failed ∧
    ¬ (generate_clip envFencedBad).clip.map Clip.status = some .safety_failed := by
  refine ⟨rfl, rfl, rfl, rfl, ?_⟩
  decide

/-- C2 amended: the automatic safety rejection (clip ends SAFETY_FAILED,
run returns normally) covers exactly the responses that are not valid JSON
and contain **no** fenced JSON block; a fenced block with invalid JSON
contents — and generally any raise out of `review_safety`, including a
mis-shaped parsed result — propagates, and the clip ends FAILED. -/
theorem C2_malformed_safety_amended (env : PipelineEnv) (c0 : Clip) (raw : String)
    (hclip : env.clip = some c0) (hscen : env.scenario_found = true)
    (g : GenerationResult) (tk ms : Nat) (hg : genStage env = .ok (g, tk, ms))
    (hraw : env.safety_api = .ok raw) :
    (json_loads raw = none → findFencedJson raw = none →
      ∃ c, (generate_clip env).result = .ok c ∧ c.status = .safety_failed ∧
        c.safety_status = some "rejected") ∧
    (∀ e, review_safety raw = .error e →
      (generate_clip env).result = .error e ∧
      (generate_clip env).clip.map Clip.status = some .failed) := by
  constructor
  · intro h1 h2
    have hrs : review_safety raw =
        .ok ⟨false, [], some safetyRejectFeedback⟩ := by
      simp [review_safety, h1, h2]
    have hs : safetyStage env = .ok ⟨false, [], some safetyRejectFeedback⟩ := by
      simp [safetyStage, hraw, hrs]
    simp only [generate_clip, hclip, hscen, hg, hs]
    exact ⟨_, by trivial, by trivial, by trivial⟩
  · intro e herr
    have hs : safetyStage env = .error e := by
      simp [safetyStage, hraw, herr]
    simp only [generate_clip, hclip, hscen, hg, hs, failRun]
    exact ⟨by trivial, by trivial⟩

set_option maxRecDepth 40000 in
theorem C2_malformed_safety_amended_witness :
    (∃ c, (generate_clip envSafetyProse).result = .ok c ∧
      c.status = .safety_failed ∧ c.safety_status = some "rejected") ∧
    ((generate_clip envFencedBad).result = .error .jsonDecodeError ∧
      (generate_clip envFencedBad).clip.map Clip.status = some .failed) :=
  ⟨(C2_malformed_safety_amended envSafetyProse clip0C "I cannot review this, sorry."
      rfl rfl gResC 321 7 rfl rfl).1 rfl rfl,
    (C2_malformed_safety_amended envFencedBad clip0C fencedBadRaw
      rfl rfl gResC 321 7 rfl rfl).2 .jsonDecodeError rfl⟩

/-! ## Claims about the Script Generator -/

theorem Json.asStr_eq_some_iff {j : Json} {s : String} :
    Json.asStr j = some s ↔ j = .str s := by
  cases j <;> simp [Json.asStr]

theorem Json.asStrList_eq_some_iff {j : Json} {l : List String} :
    Json.asStrList j = some l ↔
      ∃ items, j = .arr items ∧ items.mapM Json.asStr = some l := by
  cases j <;> simp [Json.asStrList]

/-- Shape of any data that pydantic validation accepts: all seven required
fields present with the right types, and the result built from them. -/
theorem GenerationResult.ofJson_ok_shape {d : Json} {r : GenerationResult}
    (h : GenerationResult.ofJson d = .ok r) :
    ∃ fields, d = .obj fields ∧
      dictGet fields "script" = some (.str r.script) ∧
      dictGet fields "voice_emotion" = some (.str r.voice_emotion) ∧
      dictGet fields "voice_pacing" = some (.str r.voice_pacing) ∧
      dictGet fields "scene_setting" = some (.str r.scene_setting) ∧
      dictGet fields "scene_mood" = some (.str r.scene_mood) ∧
      (∃ items, dictGet fields "ambient_sounds" = some (.arr items) ∧
        items.mapM Json.asStr = some r.ambient_sounds) ∧
      dictGet fields "background_track" = some (.str r.background_track) := by
  cases d with
  | null => simp [GenerationResult.ofJson] at h
  | bool b => simp [GenerationResult.ofJson] at h
  | num n => simp [GenerationResult.ofJson] at h
  | str s => simp [GenerationResult.ofJson] at h
  | arr items => simp [GenerationResult.ofJson] at h
  | obj fields =>
    obtain ⟨rs, rv, rp, rss, rsm, ras, rbt⟩ := r
    refine ⟨fields, rfl, ?_⟩
    rcases e1 : (dictGet fields "script").bind Json.asStr with _ | a1
    · simp [GenerationResult.ofJson, e1] at h
    rcases e2 : (dictGet fields "voice_emotion").bind Json.asStr with _ | a2
    · simp [GenerationResult.ofJson, e1, e2] at h
    rcases e3 : (dictGet fields "voice_pacing").bind Json.asStr with _ | a3
    · simp [GenerationResult.ofJson, e1, e2, e3] at h
    rcases e4 : (dictGet fields "scene_setting").bind Json.asStr with _ | a4
    · simp [GenerationResult.ofJson, e1, e2, e3, e4] at h
    rcases e5 : (dictGet fields "scene_mood").bind Json.asStr with _ | a5
    · simp [GenerationResult.ofJson, e1, e2, e3, e4, e5] at h
    rcases e6 : (dictGet fields "ambient_sounds").bind Json.asStrList with _ | a6
    · simp [GenerationResult.ofJson, e1, e2, e3, e4, e5, e6] at h
    rcases e7 : (dictGet fields "background_track").bind Json.asStr with _ | a7
    · simp [GenerationResult.ofJson, e1, e2, e3, e4, e5, e6, e7] at h
    simp [GenerationResult.ofJson, e1, e2, e3, e4, e5, e6, e7] at h
    obtain ⟨h1, h2, h3, h4, h5, h6, h7⟩ := h
    subst h1; subst h2; subst h3; subst h4; subst h5; subst h6; subst h7
    obtain ⟨j1, hj1, hs1⟩ := Option.bind_eq_some.mp e1
    rw [Json.asStr_eq_some_iff] at hs1; subst hs1
    obtain ⟨j2, hj2, hs2⟩ := Option.bind_eq_some.mp e2
    rw [Json.asStr_eq_some_iff] at hs2; subst hs2
    obtain ⟨j3, hj3, hs3⟩ := Option.bind_eq_some.mp e3
    rw [Json.asStr_eq_some_iff] at hs3; subst hs3
    obtain ⟨j4, hj4, hs4⟩ := Option.bind_eq_some.mp e4
    rw [Json.asStr_eq_some_iff] at hs4; subst hs4
    obtain ⟨j5, hj5, hs5⟩ := Option.bind_eq_some.mp e5
    rw [Json.asStr_eq_some_iff] at hs5; subst hs5
    obtain ⟨j6, hj6, hs6⟩ := Option.bind_eq_some.mp e6
    rw [Json.asStrList_eq_some_iff] at hs6
    obtain ⟨items, hi, hm⟩ := hs6; subst hi
    obtain ⟨j7, hj7, hs7⟩ := Option.bind_eq_some.mp e7
    rw [Json.asStr_eq_some_iff] at hs7; subst hs7
    exact ⟨hj1, hj2, hj3, hj4, hj5, ⟨items, hj6, hm⟩, hj7⟩

/-- C8: `generate_script` either returns a result whose seven fields all
come from the parsed model output (direct parse or fenced-block
extraction) or raises; when neither parse succeeds it raises the explicit
`ValueError` instead of substituting defaults. -/
theorem C8_generation_all_or_nothing (raw : String) (tokens dt : Nat) :
    (∀ (r : GenerationResult) (tk ms : Nat),
      generate_script raw tokens dt = .ok (r, tk, ms) →
      ∃ data fields,
        (json_loads raw = some data ∨
          (json_loads raw = none ∧
            ∃ g, findFencedJson raw = some g ∧ json_loads g = some data)) ∧
        data = .obj fields ∧
        dictGet fields "script" = some (.str r.script) ∧
        dictGet fields "voice_emotion" = some (.str r.voice_emotion) ∧
        dictGet fields "voice_pacing" = some (.str r.voice_pacing) ∧
        dictGet fields "scene_setting" = some (.str r.scene_setting) ∧
        dictGet fields "scene_mood" = some (.str r.scene_mood) ∧
        (∃ items, dictGet fields "ambient_sounds" = some (.arr items) ∧
          items.mapM Json.asStr = some r.ambient_sounds) ∧
        dictGet fields "background_track" = some (.str r.background_track)) ∧
    (json_loads raw = none → findFencedJson raw = none →
      generate_script raw tokens dt = .error (.valueError
        ("Could not parse generation response as JSON: "
          ++ String.mk (raw.data.take 200)))) := by
  constructor
  · intro r tk ms h
    cases hjl : json_loads raw with
    | some data =>
      simp only [generate_script, hjl] at h
      cases hof : GenerationResult.ofJson data with
      | error e => rw [hof] at h; simp [Except.map] at h
      | ok r2 =>
        rw [hof] at h; simp [Except.map] at h
        obtain ⟨hr, _, _⟩ := h
        subst hr
        obtain ⟨fields, hd, rest⟩ := GenerationResult.ofJson_ok_shape hof
        exact ⟨data, fields, .inl rfl, hd, rest⟩
    | none =>
      cases hff : findFencedJson raw with
      | none => simp [generate_script, hjl, hff] at h
      | some g2 =>
        cases hg2 : json_loads g2 with
        | none => simp [generate_script, hjl, hff, hg2] at h
        | some data =>
          simp only [generate_script, hjl, hff, hg2] at h
          cases hof : GenerationResult.ofJson data with
          | error e => rw [hof] at h; simp [Except.map] at h
          | ok r2 =>
            rw [hof] at h; simp [Except.map] at h
            obtain ⟨hr, _, _⟩ := h
            subst hr
            obtain ⟨fields, hd, rest⟩ := GenerationResult.ofJson_ok_shape hof
            exact ⟨data, fields, .inr ⟨rfl, g2, rfl, hg2⟩, hd, rest⟩
  · intro h1 h2
    simp [generate_script, h1, h2]

set_option maxRecDepth 40000 in
theorem C8_generation_all_or_nothing_witness :
    (∃ data fields,
      (json_loads goodGenRaw = some data ∨
        (json_loads goodGenRaw = none ∧
          ∃ g, findFencedJson goodGenRaw = some g ∧ json_loads g = some data)) ∧
      data = .obj fields ∧
      dictGet fields "script" = some (.str gResC.script) ∧
      dictGet fields "voice_emotion" = some (.str gResC.voice_emotion) ∧
      dictGet fields "voice_pacing" = some (.str gResC.voice_pacing) ∧
      dictGet fields "scene_setting" = some (.str gResC.scene_setting) ∧
      dictGet fields "scene_mood" = some (.str gResC.scene_mood) ∧
      (∃ items, dictGet fields "ambient_sounds" = some (.arr items) ∧
        items.mapM Json.asStr = some gResC.ambient_sounds) ∧
      dictGet fields "background_track" = some (.str gResC.background_track)) ∧
    generate_script "no json here" 1 2 = .error (.valueError
      ("Could not parse generation response as JSON: "
        ++ String.mk ("no json here".data.take 200))) :=
  ⟨(C8_generation_all_or_nothing goodGenRaw 321 7).1 gResC 321 7 rfl,
    (C8_generation_all_or_nothing "no json here" 1 2).2 rfl rfl⟩

end StorySpark
